import Mathlib

/-!
Verification of the LATAM flight-delay challenge pipeline
(`challenge/model.py`, `challenge/api.py`) against its specification.

The Python code is shallowly embedded: timestamps parsed by
`datetime.strptime(_, "%Y-%m-%d %H:%M:%S")` become a `DT` structure of
calendar fields; Python `datetime`/`time` comparison is field-lexicographic
order; `datetime` subtraction is modelled by the proleptic-Gregorian
day-count (`days_from_civil`) converted to seconds; pandas frames become
lists of records, with in-place column assignment modelled by explicit
state passing (the function returns the updated frame); pickle-backed
files (`data/model.h5`, `data/all_features.p`) become a `Store` value
passed to the code that reads them; the sklearn classifier is an opaque
function (an external capability) returning a 0/1 label per feature row.
-/

namespace Challenge

/-- A timestamp as parsed by `datetime.strptime(s, "%Y-%m-%d %H:%M:%S")`. -/
structure DT where
  year : Int
  month : Nat
  day : Nat
  hour : Nat
  minute : Nat
  second : Nat
deriving DecidableEq, Repr

/-- Python `datetime` comparison `a <= b`: lexicographic on the fields. -/
def dtLeB (a b : DT) : Bool :=
  a.year < b.year || (a.year == b.year &&
    (a.month < b.month || (a.month == b.month &&
      (a.day < b.day || (a.day == b.day &&
        (a.hour < b.hour || (a.hour == b.hour &&
          (a.minute < b.minute || (a.minute == b.minute &&
            a.second ≤ b.second)))))))))

/-- The wall-clock time of day extracted by `.time()` in `get_period_day`. -/
structure TimeOfDay where
  hour : Nat
  minute : Nat
  second : Nat
deriving DecidableEq, Repr

/-- Python `time` comparison `a < b`: lexicographic on the clock fields. -/
def timeLtB (a b : TimeOfDay) : Bool :=
  a.hour < b.hour || (a.hour == b.hour &&
    (a.minute < b.minute || (a.minute == b.minute && a.second < b.second)))

/-- `DelayModel.get_period_day`: buckets the time of day with strict
comparisons against 05:00, 11:59, 12:00, 18:59, 19:00, 23:59, 00:00, 04:59;
when no branch fires the Python function falls through and returns `None`. -/
def get_period_day (t : TimeOfDay) : Option String :=
  if timeLtB ⟨5, 0, 0⟩ t && timeLtB t ⟨11, 59, 0⟩ then some "mañana"
  else if timeLtB ⟨12, 0, 0⟩ t && timeLtB t ⟨18, 59, 0⟩ then some "tarde"
  else if (timeLtB ⟨19, 0, 0⟩ t && timeLtB t ⟨23, 59, 0⟩) ||
          (timeLtB ⟨0, 0, 0⟩ t && timeLtB t ⟨4, 59, 0⟩) then some "noche"
  else none

/-- `DelayModel.is_high_season`: the four ranges are built by
`strptime("%d-%b").replace(year=fecha_año)`, so every bound carries time
00:00:00, and the parsed timestamp is compared as a full `datetime`. -/
def is_high_season (t : DT) : Nat :=
  if (dtLeB ⟨t.year, 12, 15, 0, 0, 0⟩ t && dtLeB t ⟨t.year, 12, 31, 0, 0, 0⟩) ||
     (dtLeB ⟨t.year, 1, 1, 0, 0, 0⟩ t && dtLeB t ⟨t.year, 3, 3, 0, 0, 0⟩) ||
     (dtLeB ⟨t.year, 7, 15, 0, 0, 0⟩ t && dtLeB t ⟨t.year, 7, 31, 0, 0, 0⟩) ||
     (dtLeB ⟨t.year, 9, 11, 0, 0, 0⟩ t && dtLeB t ⟨t.year, 9, 30, 0, 0, 0⟩)
  then 1 else 0

/-- Count of days from 1970-01-01 to the given proleptic-Gregorian civil
date (the day count underlying Python `datetime` subtraction). -/
def days_from_civil (y : Int) (m d : Int) : Int :=
  let yAdj : Int := if m ≤ 2 then y - 1 else y
  let era : Int := (if 0 ≤ yAdj then yAdj else yAdj - 399) / 400
  let yoe : Int := yAdj - era * 400
  let doy : Int := (153 * (if 2 < m then m - 3 else m + 9) + 2) / 5 + d - 1
  let doe : Int := yoe * 365 + yoe / 4 - yoe / 100 + doy
  era * 146097 + doe - 719468

/-- Seconds from the epoch to a `DT`, so that Python `datetime`
subtraction `(a - b).total_seconds()` is `toSeconds a - toSeconds b`. -/
def toSeconds (t : DT) : Int :=
  days_from_civil t.year (t.month : Int) (t.day : Int) * 86400 +
    (t.hour : Int) * 3600 + (t.minute : Int) * 60 + (t.second : Int)

/-- `DelayModel.get_min_diff` on the two parsed timestamps of a row:
`((fecha_o - fecha_i).total_seconds())/60`. -/
def minuteDiff (fecha_o fecha_i : DT) : ℚ :=
  ((toSeconds fecha_o - toSeconds fecha_i : Int) : ℚ) / 60

/-- `DelayModel.THRESHOLD_IN_MINUTES`. -/
def THRESHOLD_IN_MINUTES : ℚ := 15

/-- The `delay` column: `np.where(min_diff > THRESHOLD_IN_MINUTES, 1, 0)`. -/
def delayLabel (min_diff : ℚ) : Nat :=
  if THRESHOLD_IN_MINUTES < min_diff then 1 else 0

/-- Seconds since the start of the day, the spec-side reading of
"wall-clock time of day" used to state the period buckets. -/
def secondsOfDay (t : TimeOfDay) : Nat :=
  t.hour * 3600 + t.minute * 60 + t.second

/-- Midnight instant on a day: all clock fields zero. -/
def isMidnight (t : DT) : Prop :=
  t.hour = 0 ∧ t.minute = 0 ∧ t.second = 0

theorem zeroLtOrEqZero (n : Nat) : (0 < n ∨ 0 = n) ↔ True :=
  iff_true_intro (by omega)

theorem ltOrEqIffLe (a b : Nat) : (a < b ∨ a = b) ↔ a ≤ b := by omega

end Challenge

/-- Claim C4, counterexample. The claim says any time of day on an endpoint
day counts as high season, so `2023-12-31 12:00:00` (Dec 31 is the endpoint
of the Dec 15-31 window) should give 1; `is_high_season` returns 0, because
the range maxima are datetimes at midnight and `fecha <= range1_max` fails
for any later time of the endpoint day. -/
theorem c4_high_season_counterexample :
    Challenge.is_high_season ⟨2023, 12, 31, 12, 0, 0⟩ = 0 := by decide

/-- Claim C4, amended. `is_high_season t = 1` exactly when `t` lies in
Dec 15-31, Jan 1-Mar 3, Jul 15-31 or Sep 11-30 of its own year, where the
lower endpoint day is included for any time of day but the upper endpoint
day is included only at exactly midnight (00:00:00). Also checks the two
spec examples: Dec 20 is high season, Jun 1 is not. -/
theorem c4_high_season_amended (t : Challenge.DT) :
    (Challenge.is_high_season t = 1 ↔
      (t.month = 12 ∧ 15 ≤ t.day ∧
        (t.day < 31 ∨ (t.day = 31 ∧ Challenge.isMidnight t))) ∨
      ((t.month = 1 ∧ 1 ≤ t.day) ∨ t.month = 2 ∨
        (t.month = 3 ∧ (t.day < 3 ∨ (t.day = 3 ∧ Challenge.isMidnight t)))) ∨
      (t.month = 7 ∧ 15 ≤ t.day ∧
        (t.day < 31 ∨ (t.day = 31 ∧ Challenge.isMidnight t))) ∨
      (t.month = 9 ∧ 11 ≤ t.day ∧
        (t.day < 30 ∨ (t.day = 30 ∧ Challenge.isMidnight t)))) ∧
    Challenge.is_high_season ⟨2023, 12, 20, 0, 0, 0⟩ = 1 ∧
    Challenge.is_high_season ⟨2023, 6, 1, 0, 0, 0⟩ = 0 := by
  refine ⟨?_, by decide, by decide⟩
  rcases t with ⟨y, mo, d, h, mi, s⟩
  rw [Challenge.is_high_season]
  split_ifs with hc
  · simp only [Challenge.dtLeB, Bool.or_eq_true, Bool.and_eq_true,
      decide_eq_true_eq, beq_iff_eq, lt_self_iff_false, true_and, false_or,
      Nat.le_zero, Nat.zero_le, and_true, Nat.not_lt_zero,
      Challenge.zeroLtOrEqZero, Challenge.ltOrEqIffLe] at hc
    simp only [Challenge.isMidnight, eq_self_iff_true, true_iff]
    rcases hc with ((⟨ha, hb⟩ | ⟨ha, hb⟩) | ⟨ha, hb⟩) | ⟨ha, hb⟩
    · exact Or.inl (by omega)
    · exact Or.inr (Or.inl (by omega))
    · exact Or.inr (Or.inr (Or.inl (by omega)))
    · exact Or.inr (Or.inr (Or.inr (by omega)))
  · simp only [Challenge.dtLeB, Bool.or_eq_true, Bool.and_eq_true,
      decide_eq_true_eq, beq_iff_eq, lt_self_iff_false, true_and, false_or,
      Nat.le_zero, Nat.zero_le, and_true, Nat.not_lt_zero,
      Challenge.zeroLtOrEqZero, Challenge.ltOrEqIffLe] at hc
    simp only [Challenge.isMidnight]
    constructor
    · intro h0
      exact absurd h0 (by decide)
    · intro hr
      exfalso
      apply hc
      rcases hr with ⟨h1, h2, h3⟩ | (⟨h1, h2⟩ | h1 | ⟨h1, h2⟩) |
        ⟨h1, h2, h3⟩ | ⟨h1, h2, h3⟩
      · exact Or.inl (Or.inl (Or.inl ⟨by omega, by omega⟩))
      · exact Or.inl (Or.inl (Or.inr ⟨by omega, by omega⟩))
      · exact Or.inl (Or.inl (Or.inr ⟨by omega, by omega⟩))
      · exact Or.inl (Or.inl (Or.inr ⟨by omega, by omega⟩))
      · exact Or.inl (Or.inr ⟨by omega, by omega⟩)
      · exact Or.inr ⟨by omega, by omega⟩

/-- Claim C5. `get_period_day` classifies the wall-clock time of day with
strict open intervals: mañana (morning) strictly between 05:00 and 11:59,
tarde (afternoon) strictly between 12:00 and 18:59, noche (night) strictly
between 19:00 and 23:59 or strictly between 00:00 and 04:59, and boundary
instants such as exactly 05:00:00 or 11:59:00 get no classification.
The intervals are phrased over seconds-of-day for a parsed clock time
(minutes and seconds below 60). Also checks the three spec examples. -/
theorem c5_period_day (t : Challenge.TimeOfDay)
    (hm : t.minute < 60) (hs : t.second < 60) :
    (Challenge.get_period_day t = some "mañana" ↔
      5 * 3600 < Challenge.secondsOfDay t ∧
        Challenge.secondsOfDay t < 11 * 3600 + 59 * 60) ∧
    (Challenge.get_period_day t = some "tarde" ↔
      12 * 3600 < Challenge.secondsOfDay t ∧
        Challenge.secondsOfDay t < 18 * 3600 + 59 * 60) ∧
    (Challenge.get_period_day t = some "noche" ↔
      ((19 * 3600 < Challenge.secondsOfDay t ∧
          Challenge.secondsOfDay t < 23 * 3600 + 59 * 60) ∨
       (0 < Challenge.secondsOfDay t ∧
          Challenge.secondsOfDay t < 4 * 3600 + 59 * 60))) ∧
    Challenge.get_period_day ⟨5, 0, 0⟩ = none ∧
    Challenge.get_period_day ⟨11, 59, 0⟩ = none ∧
    Challenge.get_period_day ⟨7, 0, 0⟩ = some "mañana" ∧
    Challenge.get_period_day ⟨13, 0, 0⟩ = some "tarde" ∧
    Challenge.get_period_day ⟨20, 0, 0⟩ = some "noche" := by
  rcases t with ⟨h, m, s⟩
  simp only [Challenge.secondsOfDay] at hm hs ⊢
  refine ⟨?_, ?_, ?_, by decide, by decide, by decide, by decide, by decide⟩ <;>
    rw [Challenge.get_period_day] <;>
    split_ifs with h1 h2 h3
  · simp only [Challenge.timeLtB, Bool.or_eq_true, Bool.and_eq_true,
      decide_eq_true_eq, beq_iff_eq] at h1
    exact ⟨fun _ => by omega, fun _ => rfl⟩
  · exact ⟨fun hEq => absurd hEq (by decide), fun hA => by
      simp only [Challenge.timeLtB, Bool.or_eq_true, Bool.and_eq_true,
        decide_eq_true_eq, beq_iff_eq] at h1 h2
      exact absurd hA (by omega)⟩
  · exact ⟨fun hEq => absurd hEq (by decide), fun hA => by
      simp only [Challenge.timeLtB, Bool.or_eq_true, Bool.and_eq_true,
        decide_eq_true_eq, beq_iff_eq] at h1 h2 h3
      exact absurd hA (by omega)⟩
  · exact ⟨fun hEq => absurd hEq (by decide), fun hA => by
      simp only [Challenge.timeLtB, Bool.or_eq_true, Bool.and_eq_true,
        decide_eq_true_eq, beq_iff_eq] at h1 h2 h3
      exact absurd hA (by omega)⟩
  · exact ⟨fun hEq => absurd hEq (by decide), fun hA => by
      simp only [Challenge.timeLtB, Bool.or_eq_true, Bool.and_eq_true,
        decide_eq_true_eq, beq_iff_eq] at h1
      exact absurd hA (by omega)⟩
  · simp only [Challenge.timeLtB, Bool.or_eq_true, Bool.and_eq_true,
      decide_eq_true_eq, beq_iff_eq] at h2
    exact ⟨fun _ => by omega, fun _ => rfl⟩
  · exact ⟨fun hEq => absurd hEq (by decide), fun hA => by
      simp only [Challenge.timeLtB, Bool.or_eq_true, Bool.and_eq_true,
        decide_eq_true_eq, beq_iff_eq] at h1 h2 h3
      exact absurd hA (by omega)⟩
  · exact ⟨fun hEq => absurd hEq (by decide), fun hA => by
      simp only [Challenge.timeLtB, Bool.or_eq_true, Bool.and_eq_true,
        decide_eq_true_eq, beq_iff_eq] at h1 h2 h3
      exact absurd hA (by omega)⟩
  · exact ⟨fun hEq => absurd hEq (by decide), fun hA => by
      simp only [Challenge.timeLtB, Bool.or_eq_true, Bool.and_eq_true,
        decide_eq_true_eq, beq_iff_eq] at h1
      exact absurd hA (by omega)⟩
  · exact ⟨fun hEq => absurd hEq (by decide), fun hA => by
      simp only [Challenge.timeLtB, Bool.or_eq_true, Bool.and_eq_true,
        decide_eq_true_eq, beq_iff_eq] at h1 h2
      exact absurd hA (by omega)⟩
  · simp only [Challenge.timeLtB, Bool.or_eq_true, Bool.and_eq_true,
      decide_eq_true_eq, beq_iff_eq] at h3
    exact ⟨fun _ => by omega, fun _ => rfl⟩
  · exact ⟨fun hEq => absurd hEq (by decide), fun hA => by
      simp only [Challenge.timeLtB, Bool.or_eq_true, Bool.and_eq_true,
        decide_eq_true_eq, beq_iff_eq] at h1 h2 h3
      exact absurd hA (by omega)⟩

/-- Claim C5, witness: the theorem applied at the concrete clock time
07:00:00 yields the morning classification. -/
theorem c5_period_day_witness :
    Challenge.get_period_day ⟨7, 0, 0⟩ = some "mañana" :=
  (c5_period_day ⟨7, 0, 0⟩ (by decide) (by decide)).1.mpr (by decide)

/-- Claim C6. `get_min_diff` returns the signed difference `actual minus
scheduled` (Fecha-O minus Fecha-I) expressed in minutes: for timestamps of
the same day it is the clock-seconds difference over 60, and it is
antisymmetric in its arguments; the derived `delay` label is 1 exactly when
the difference exceeds 15 minutes (900 seconds), and a difference of
exactly 15 minutes yields 0. Also checks the spec examples, including a
cross-day difference over the 2024 leap-year February. -/
theorem c6_min_diff_delay :
    (∀ (y : Int) (mo d ha ma sa hb mb sb : Nat),
      Challenge.minuteDiff ⟨y, mo, d, hb, mb, sb⟩ ⟨y, mo, d, ha, ma, sa⟩ =
        (((hb * 3600 + mb * 60 + sb : Int) -
          (ha * 3600 + ma * 60 + sa : Int) : Int) : ℚ) / 60) ∧
    (∀ o i : Challenge.DT,
      Challenge.minuteDiff o i = - Challenge.minuteDiff i o) ∧
    (∀ o i : Challenge.DT,
      Challenge.delayLabel (Challenge.minuteDiff o i) = 1 ↔
        900 < Challenge.toSeconds o - Challenge.toSeconds i) ∧
    (∀ o i : Challenge.DT,
      Challenge.toSeconds o - Challenge.toSeconds i = 900 →
        Challenge.delayLabel (Challenge.minuteDiff o i) = 0) ∧
    Challenge.minuteDiff ⟨2023, 1, 1, 10, 20, 0⟩ ⟨2023, 1, 1, 10, 0, 0⟩ = 20 ∧
    Challenge.delayLabel 20 = 1 ∧
    Challenge.delayLabel 10 = 0 ∧
    Challenge.delayLabel 15 = 0 ∧
    Challenge.minuteDiff ⟨2024, 3, 1, 0, 0, 0⟩ ⟨2024, 2, 28, 23, 0, 0⟩
      = 1500 := by
  have h60 : (0 : ℚ) < 60 := by norm_num
  refine ⟨?_, ?_, ?_, ?_, ?_, ?_, ?_, ?_, ?_⟩
  · intro y mo d ha ma sa hb mb sb
    rw [Challenge.minuteDiff]
    congr 1
    dsimp only [Challenge.toSeconds]
    push_cast
    ring
  · intro o i
    rw [Challenge.minuteDiff, Challenge.minuteDiff]
    push_cast
    ring
  · intro o i
    rw [Challenge.delayLabel, Challenge.THRESHOLD_IN_MINUTES]
    split_ifs with hlt
    · refine ⟨fun _ => ?_, fun _ => rfl⟩
      rw [Challenge.minuteDiff, lt_div_iff₀ h60] at hlt
      norm_num at hlt
      exact_mod_cast hlt
    · refine ⟨fun h01 => absurd h01 (by decide), fun hgt => ?_⟩
      exfalso
      apply hlt
      rw [Challenge.minuteDiff, lt_div_iff₀ h60]
      norm_num
      exact_mod_cast hgt
  · intro o i h900
    rw [Challenge.delayLabel, Challenge.minuteDiff, h900]
    norm_num [Challenge.THRESHOLD_IN_MINUTES]
  · norm_num [Challenge.minuteDiff, Challenge.toSeconds,
      Challenge.days_from_civil]
  · norm_num [Challenge.delayLabel, Challenge.THRESHOLD_IN_MINUTES]
  · norm_num [Challenge.delayLabel, Challenge.THRESHOLD_IN_MINUTES]
  · norm_num [Challenge.delayLabel, Challenge.THRESHOLD_IN_MINUTES]
  · norm_num [Challenge.minuteDiff, Challenge.toSeconds,
      Challenge.days_from_civil]

/-- Claim C6, witness: the theorem applied to a pair of timestamps exactly
15 minutes apart yields label 0. -/
theorem c6_min_diff_delay_witness :
    Challenge.delayLabel
      (Challenge.minuteDiff ⟨2023, 1, 1, 10, 15, 0⟩ ⟨2023, 1, 1, 10, 0, 0⟩)
      = 0 :=
  c6_min_diff_delay.2.2.2.1 ⟨2023, 1, 1, 10, 15, 0⟩ ⟨2023, 1, 1, 10, 0, 0⟩
    (by decide)

namespace Challenge

/-- Python `col.startswith("OPERA")`: character-wise on the string data. -/
def pyStartsWith (s p : String) : Bool :=
  p.data.isPrefixOf s.data

/-- Python `str.replace` on character lists: replaces non-overlapping
occurrences of `pat` left to right; `fuel` bounds the recursion by the
length of the remaining input (the pattern used by the source,
`"OPERA_"`, is nonempty, so each step consumes at least one character). -/
def replaceAux (pat repl : List Char) : Nat → List Char → List Char
  | _, [] => []
  | 0, s => s
  | fuel + 1, c :: rest =>
    if pat.isPrefixOf (c :: rest) then
      repl ++ replaceAux pat repl fuel ((c :: rest).drop pat.length)
    else
      c :: replaceAux pat repl fuel rest

/-- Python `s.replace(pat, repl)`. -/
def pyReplace (s pat repl : String) : String :=
  ⟨replaceAux pat.data repl.data s.data.length s.data⟩

/-- check_response's derived airline vocabulary:
`[col.replace("OPERA_", "") for col in features.columns.tolist() if
col.startswith("OPERA")]`. -/
def replace_opera (featureCols : List String) : List String :=
  (featureCols.filter (fun c => pyStartsWith c "OPERA")).map
    (fun c => pyReplace c "OPERA_" "")

/-- One flight record of a /predict request body. -/
structure Flight where
  opera : String
  tipovuelo : String
  mes : Int
deriving DecidableEq, Repr

/-- The pickle-backed state the serving path reads: the columns of
`data/all_features.p` and the `data/model.h5` classifier, the latter an
external sklearn binary model treated as an opaque function from a
feature row to a 0/1 label. -/
structure Store where
  featureCols : List String
  classifier : List Nat → Fin 2

/-- `DelayModel.top_10_features`. -/
def top_10_features : List String :=
  ["OPERA_Latin American Wings", "MES_7", "MES_10", "OPERA_Grupo LATAM",
   "MES_12", "TIPOVUELO_I", "MES_4", "MES_11", "OPERA_Sky Airline",
   "OPERA_Copa Air"]

/-- The checks check_response applies to one flight, in source order:
MES within 1..12, then TIPOVUELO in {N, I}, then OPERA in the derived
airline vocabulary; the first failing field is returned. -/
def validateFlight (vocab : List String) (f : Flight) :
    Option (String × String) :=
  if 12 < f.mes ∨ f.mes < 1 then some ("MES", "Column MES not found")
  else if ¬(f.tipovuelo = "N" ∨ f.tipovuelo = "I") then
    some ("TIPOVUELO", "Column TIPOVUELO not found")
  else if ¬(f.opera ∈ vocab) then
    some ("OPERA", "Column OPERA not found")
  else none

/-- check_response's loop over `data.flights`: the first invalid flight
aborts the whole batch with its error; otherwise every flight is kept,
in request order. -/
def collectValid (vocab : List String) :
    List Flight → Except (String × String) (List Flight)
  | [] => Except.ok []
  | f :: rest =>
    match validateFlight vocab f with
    | some e => Except.error e
    | none =>
      match collectValid vocab rest with
      | Except.error e => Except.error e
      | Except.ok l => Except.ok (f :: l)

/-- The one-hot column names one flight contributes under
`pd.get_dummies(_, prefix=...)` for OPERA, TIPOVUELO and MES. -/
def oneHotCols (f : Flight) : List String :=
  ["OPERA_" ++ f.opera, "TIPOVUELO_" ++ f.tipovuelo,
   "MES_" ++ toString f.mes]

/-- The column list of `features_df = pd.concat([get_dummies(OPERA),
get_dummies(TIPOVUELO), get_dummies(MES)], axis=1)`: the distinct
categories of each of the three columns. (get_dummies also sorts each
block; the order is irrelevant here because the write loop below writes
each column at most once, with a value that does not depend on when it
is written.) -/
def dummyCols (flights : List Flight) : List String :=
  (flights.map (fun f => "OPERA_" ++ f.opera)).dedup ++
  (flights.map (fun f => "TIPOVUELO_" ++ f.tipovuelo)).dedup ++
  (flights.map (fun f => "MES_" ++ toString f.mes)).dedup

/-- `features_df[col].values[0]`: the dummy value of column `col` for the
FIRST row of the batch (1 exactly when the first flight carries that
one-hot column); check_response never reads any later row. -/
def dummyVal0 (flights : List Flight) (c : String) : Nat :=
  match flights with
  | [] => 0
  | f :: _ => if c ∈ oneHotCols f then 1 else 0

/-- The write loop `for col in features_df.columns.tolist(): if col in
self.top_10_features: data_predict[0][self.top_10_features.index(col)] =
features_df[col].values[0]`, run on an initial row `init`. -/
def writeCols (vals : String → Nat) : List String → List Nat → List Nat
  | [], init => init
  | c :: cs, init =>
    writeCols vals cs
      (if c ∈ top_10_features then
        init.set (top_10_features.indexOf c) (vals c)
      else init)

/-- The single feature row check_response builds:
`data_predict = [[0] * len(self.top_10_features)]` overwritten from the
first row of the batch dummies. -/
def projectTop10 (flights : List Flight) : List Nat :=
  writeCols (dummyVal0 flights) (dummyCols flights)
    (List.replicate top_10_features.length 0)

/-- `DelayModel.check_response`: reads the persisted feature columns,
validates every flight (first failure aborts), one-hot encodes the kept
flights, builds the single projected feature row and returns the
classifier's prediction list for that one row. -/
def check_response (store : Store) (flights : List Flight) :
    Except (String × String) (List Nat) :=
  match collectValid (replace_opera store.featureCols) flights with
  | Except.error e => Except.error e
  | Except.ok valid =>
    Except.ok [(store.classifier (projectTop10 valid)).val]

/-- The HTTP outcome of post_predict. -/
inductive ApiResult where
  | ok (labels : List Nat)
  | okRaw (err : String × String)
  | httpError (status : Nat) (detail : String)
deriving DecidableEq, Repr

/-- `post_predict`: constructs a fresh DelayModel and calls
check_response — both pickle loads happen inside the request handler, so
the persisted store is a parameter of the handler. A validation error is
mapped to HTTP 400 with a message naming the field; the `okRaw` arm
mirrors the source's fall-through when the error tuple names none of the
three fields (unreachable for errors produced by check_response). -/
def post_predict (store : Store) (flights : List Flight) : ApiResult :=
  match check_response store flights with
  | Except.error e =>
    if e.1 = "MES" then
      ApiResult.httpError 400 "Value in column MES is incorrect"
    else if e.1 = "TIPOVUELO" then
      ApiResult.httpError 400 "Value in column TIPOVUELO is incorrect"
    else if e.1 = "OPERA" then
      ApiResult.httpError 400 "Value in column OPERA is incorrect"
    else ApiResult.okRaw e
  | Except.ok labels => ApiResult.ok labels

end Challenge

namespace Challenge

/-- A raw row of the training frame: the columns preprocess reads
(parsed `Fecha-I` and `Fecha-O` timestamps, OPERA, TIPOVUELO, MES). -/
structure RawRow where
  fechaI : DT
  fechaO : DT
  opera : String
  tipovuelo : String
  mes : Int
deriving DecidableEq, Repr

/-- `.time()` of a parsed timestamp. -/
def dtTime (t : DT) : TimeOfDay :=
  ⟨t.hour, t.minute, t.second⟩

/-- `DelayModel.get_min_diff` on one row: parses the row's `Fecha-O` and
`Fecha-I` and returns their difference in minutes. -/
def get_min_diff (row : RawRow) : ℚ :=
  minuteDiff row.fechaO row.fechaI

/-- A row after preprocess's four in-place column assignments
(`period_day`, `high_season`, `min_diff`, `delay`), keeping the raw
columns unchanged. -/
structure EngRow where
  raw : RawRow
  period_day : Option String
  high_season : Nat
  min_diff : ℚ
  delay : Nat
deriving DecidableEq, Repr

/-- The four column assignments of preprocess applied to one row. -/
def addDerived (r : RawRow) : EngRow :=
  ⟨r, get_period_day (dtTime r.fechaI), is_high_season r.fechaI,
   get_min_diff r, delayLabel (get_min_diff r)⟩

/-- The one-hot columns a raw row contributes to the training dummies. -/
def oneHotColsRaw (r : RawRow) : List String :=
  ["OPERA_" ++ r.opera, "TIPOVUELO_" ++ r.tipovuelo,
   "MES_" ++ toString r.mes]

/-- `features[self.top_10_features]` at the end of preprocess: selects the
ten vocabulary columns row-wise from the batch dummies, dropping every
other column; pandas raises a KeyError (modelled as `none`) when a
requested column is missing from the batch dummies. -/
def selectTop10 (df : List RawRow) : Option (List (List Nat)) :=
  if top_10_features.all (fun c => df.any (fun r => c ∈ oneHotColsRaw r))
  then
    some (df.map (fun r => top_10_features.map
      (fun c => if c ∈ oneHotColsRaw r then 1 else 0)))
  else none

/-- `DelayModel.preprocess` with the caller's frame passed by state: the
first component is the frame after the four in-place column assignments,
the second the returned features (and the `delay` target column when
`target_column` is set). -/
def preprocess (df : List RawRow) (target_column : Option String) :
    List EngRow × (Option (List (List Nat)) × Option (List Nat)) :=
  let mutated := df.map addDerived
  (mutated, (selectTop10 df,
    if target_column.isSome then some (mutated.map EngRow.delay)
    else none))

/-- `DelayModel.fit`: `n_y0 = len(target[target == 0])`,
`n_y1 = len(target[target == 1])` and the class_weight dictionary
`{1: n_y0/len(target), 0: n_y1/len(target)}`, returned as the pair
(weight of class 1, weight of class 0). -/
def fitClassWeights (target : List Nat) : ℚ × ℚ :=
  let n_y0 := (target.filter (fun l => l = 0)).length
  let n_y1 := (target.filter (fun l => l = 1)).length
  ((n_y0 : ℚ) / target.length, (n_y1 : ℚ) / target.length)

end Challenge

namespace Challenge

theorem top10_nodup : top_10_features.Nodup := by decide

theorem writeCols_length (vals : String → Nat) (cols : List String)
    (init : List Nat) :
    (writeCols vals cols init).length = init.length := by
  induction cols generalizing init with
  | nil => rfl
  | cons c cs ih =>
    rw [writeCols, ih]
    split_ifs with hmem
    · exact List.length_set init _ _
    · rfl

/-- What the write loop leaves at position `i`: the dummy value of the
`i`-th vocabulary column when that column occurs among the batch columns,
the initial entry otherwise. -/
theorem writeCols_getD (vals : String → Nat) (cols : List String)
    (init : List Nat) (hlen : init.length = top_10_features.length)
    (i : Nat) (hi : i < top_10_features.length) :
    (writeCols vals cols init).getD i 0 =
      if top_10_features.getD i "" ∈ cols then
        vals (top_10_features.getD i "")
      else init.getD i 0 := by
  induction cols generalizing init with
  | nil =>
    rw [writeCols, if_neg (List.not_mem_nil _)]
  | cons c cs ih =>
    rw [writeCols]
    have hgd : top_10_features.getD i "" = top_10_features[i] :=
      List.getD_eq_getElem _ _ hi
    by_cases hmem : c ∈ top_10_features
    · rw [if_pos hmem]
      have hlen2 : (init.set (top_10_features.indexOf c) (vals c)).length =
          top_10_features.length := by
        rw [List.length_set]; exact hlen
      rw [ih _ hlen2]
      have hidx : top_10_features.indexOf c = i ↔ top_10_features[i] = c := by
        constructor
        · intro he
          have h1 : top_10_features.indexOf c < top_10_features.length :=
            List.indexOf_lt_length.2 hmem
          have h2 := List.getElem_indexOf h1
          subst he
          exact h2
        · intro he
          have h3 := List.indexOf_getElem top10_nodup i hi
          rw [he] at h3
          exact h3
      by_cases hcs : top_10_features.getD i "" ∈ cs
      · rw [if_pos hcs, if_pos (List.mem_cons_of_mem c hcs)]
      · rw [if_neg hcs]
        by_cases heq : top_10_features[i] = c
        · have hmain : top_10_features.getD i "" ∈ c :: cs := by
            rw [hgd]
            exact List.mem_cons.2 (Or.inl heq)
          rw [if_pos hmain,
            List.getD_eq_getElem _ _ (by rw [List.length_set, hlen]; exact hi),
            List.getElem_set, if_pos (hidx.2 heq), hgd, heq]
        · have hmain : ¬ top_10_features.getD i "" ∈ c :: cs := by
            rw [hgd]
            intro hmem2
            rcases List.mem_cons.1 hmem2 with h | h
            · exact heq h
            · exact hcs (hgd ▸ h)
          have hne : ¬ top_10_features.indexOf c = i :=
            fun he => heq (hidx.1 he)
          rw [if_neg hmain,
            List.getD_eq_getElem _ _ (by rw [List.length_set, hlen]; exact hi),
            List.getElem_set, if_neg hne,
            List.getD_eq_getElem _ _ (by rw [hlen]; exact hi)]
    · rw [if_neg hmem, ih _ hlen]
      by_cases hcs : top_10_features.getD i "" ∈ cs
      · rw [if_pos hcs, if_pos (List.mem_cons_of_mem c hcs)]
      · rw [if_neg hcs, if_neg (by
          intro hmem2
          rcases List.mem_cons.1 hmem2 with h | h
          · exact hmem (by rw [hgd] at h; exact h ▸ List.getElem_mem hi)
          · exact hcs h)]

/-- A column the first flight carries always occurs among the batch
columns, so a column outside the batch columns has dummy value 0. -/
theorem dummyVal0_eq_zero (flights : List Flight) (c : String)
    (hc : ¬ c ∈ dummyCols flights) : dummyVal0 flights c = 0 := by
  cases flights with
  | nil => rfl
  | cons f rest =>
    rw [dummyVal0, if_neg]
    intro hin
    apply hc
    simp only [dummyCols, List.mem_append, List.mem_dedup, List.mem_map]
    simp only [oneHotCols, List.mem_cons, List.not_mem_nil, or_false] at hin
    rcases hin with h | h | h
    · exact Or.inl (Or.inl ⟨f, List.mem_cons_self f rest, h.symm⟩)
    · exact Or.inl (Or.inr ⟨f, List.mem_cons_self f rest, h.symm⟩)
    · exact Or.inr ⟨f, List.mem_cons_self f rest, h.symm⟩

/-- The net effect of check_response's projection: position `i` of the
single feature row is the first flight's dummy value for the `i`-th
vocabulary column. -/
theorem projectTop10_eq (flights : List Flight) :
    projectTop10 flights = top_10_features.map (dummyVal0 flights) := by
  have hlen : (projectTop10 flights).length =
      (top_10_features.map (dummyVal0 flights)).length := by
    rw [projectTop10, writeCols_length, List.length_replicate,
      List.length_map]
  apply List.ext_getElem hlen
  intro i h1 h2
  have hi : i < top_10_features.length := by
    rw [List.length_map] at h2; exact h2
  calc (projectTop10 flights)[i]
      = (projectTop10 flights).getD i 0 :=
        (List.getD_eq_getElem _ _ h1).symm
    _ = if top_10_features.getD i "" ∈ dummyCols flights then
          dummyVal0 flights (top_10_features.getD i "")
        else (List.replicate top_10_features.length 0).getD i 0 :=
        writeCols_getD _ _ _ (by rw [List.length_replicate]) i hi
    _ = dummyVal0 flights (top_10_features.getD i "") := by
        split_ifs with hmem
        · rfl
        · rw [List.getD_eq_getElem _ _
            (by rw [List.length_replicate]; exact hi),
            List.getElem_replicate]
          exact (dummyVal0_eq_zero flights _ hmem).symm
    _ = dummyVal0 flights top_10_features[i] := by
        rw [List.getD_eq_getElem _ _ hi]
    _ = (top_10_features.map (dummyVal0 flights))[i] :=
        (List.getElem_map _).symm

/-- A plausible column set of the persisted `data/all_features.p` frame,
used for the concrete instances below. -/
def colsEx : List String :=
  ["OPERA_Grupo LATAM", "OPERA_Sky Airline", "OPERA_American Airlines",
   "OPERA_Copa Air", "TIPOVUELO_I", "TIPOVUELO_N", "MES_1", "MES_7"]

/-- Persisted state whose classifier always answers 0. -/
def storeZero : Store := ⟨colsEx, fun _ => 0⟩

/-- Persisted state with the same vocabulary whose classifier always
answers 1. -/
def storeOne : Store := ⟨colsEx, fun _ => 1⟩

/-- A valid flight: known airline, international, July. -/
def fLatam : Flight := ⟨"Grupo LATAM", "I", 7⟩

/-- Another valid flight: known airline, national, March. -/
def fSky : Flight := ⟨"Sky Airline", "N", 3⟩

/-- A valid flight whose airline, flight type and month all lie outside
the ten-column vocabulary. -/
def fOutside : Flight := ⟨"American Airlines", "N", 1⟩

end Challenge

/-- Helper for claim C2: the validation loop aborts the batch with the
error of the first invalid flight. -/
theorem c2_collect_error (vocab : List String)
    (pre suf : List Challenge.Flight)
    (f : Challenge.Flight) (e : String × String)
    (hpre : ∀ g ∈ pre, Challenge.validateFlight vocab g = none)
    (hf : Challenge.validateFlight vocab f = some e) :
    Challenge.collectValid vocab (pre ++ f :: suf) = Except.error e := by
  induction pre with
  | nil =>
    simp only [List.nil_append, Challenge.collectValid, hf]
  | cons g gs ih =>
    have hg : Challenge.validateFlight vocab g = none :=
      hpre g (List.mem_cons_self g gs)
    have ih2 := ih (fun x hx => hpre x (List.mem_cons_of_mem g hx))
    simp only [List.cons_append, Challenge.collectValid, hg,
      List.append_eq, ih2]

/-- Claim C2. In a batch whose flights before `f` are all valid and whose
flight `f` is invalid, check_response rejects the whole batch with `f`'s
error (no predictions for any record), post_predict surfaces it as HTTP
400 naming the field, and the field named is the first failing check of
`f` in the fixed order MES (1..12), then TIPOVUELO in {N, I}, then OPERA
in the persisted airline vocabulary. -/
theorem c2_validation (store : Challenge.Store)
    (pre suf : List Challenge.Flight)
    (f : Challenge.Flight) (e : String × String)
    (hpre : ∀ g ∈ pre,
      Challenge.validateFlight
        (Challenge.replace_opera store.featureCols) g = none)
    (hf : Challenge.validateFlight
      (Challenge.replace_opera store.featureCols) f = some e) :
    Challenge.check_response store (pre ++ f :: suf) = Except.error e ∧
    Challenge.post_predict store (pre ++ f :: suf) =
      Challenge.ApiResult.httpError 400
        ("Value in column " ++ e.1 ++ " is incorrect") ∧
    ((e.1 = "MES" ∧ ¬(1 ≤ f.mes ∧ f.mes ≤ 12)) ∨
     (e.1 = "TIPOVUELO" ∧ (1 ≤ f.mes ∧ f.mes ≤ 12) ∧
        ¬(f.tipovuelo = "N" ∨ f.tipovuelo = "I")) ∨
     (e.1 = "OPERA" ∧ (1 ≤ f.mes ∧ f.mes ≤ 12) ∧
        (f.tipovuelo = "N" ∨ f.tipovuelo = "I") ∧
        ¬ f.opera ∈ Challenge.replace_opera store.featureCols)) := by
  have herr := c2_collect_error _ pre suf f e hpre hf
  have hcr : Challenge.check_response store (pre ++ f :: suf) =
      Except.error e := by
    unfold Challenge.check_response
    rw [herr]
  have htri :
      (e = ("MES", "Column MES not found") ∧ ¬(1 ≤ f.mes ∧ f.mes ≤ 12)) ∨
      (e = ("TIPOVUELO", "Column TIPOVUELO not found") ∧
        (1 ≤ f.mes ∧ f.mes ≤ 12) ∧
        ¬(f.tipovuelo = "N" ∨ f.tipovuelo = "I")) ∨
      (e = ("OPERA", "Column OPERA not found") ∧
        (1 ≤ f.mes ∧ f.mes ≤ 12) ∧
        (f.tipovuelo = "N" ∨ f.tipovuelo = "I") ∧
        ¬ f.opera ∈ Challenge.replace_opera store.featureCols) := by
    unfold Challenge.validateFlight at hf
    by_cases h1 : (12 : Int) < f.mes ∨ f.mes < 1
    · rw [if_pos h1] at hf
      cases hf
      exact Or.inl ⟨rfl, by omega⟩
    · rw [if_neg h1] at hf
      by_cases h2 : ¬(f.tipovuelo = "N" ∨ f.tipovuelo = "I")
      · rw [if_pos h2] at hf
        cases hf
        exact Or.inr (Or.inl ⟨rfl, by omega, h2⟩)
      · rw [if_neg h2] at hf
        by_cases h3 :
            ¬ f.opera ∈ Challenge.replace_opera store.featureCols
        · rw [if_pos h3] at hf
          cases hf
          exact Or.inr (Or.inr ⟨rfl, by omega, not_not.1 h2, h3⟩)
        · rw [if_neg h3] at hf
          cases hf
  refine ⟨hcr, ?_, ?_⟩
  · unfold Challenge.post_predict
    rw [hcr]
    rcases htri with ⟨he, _⟩ | ⟨he, _⟩ | ⟨he, _⟩ <;> subst he <;> rfl
  · rcases htri with ⟨he, hp⟩ | ⟨he, hp⟩ | ⟨he, hp⟩
    · exact Or.inl ⟨by rw [he], hp⟩
    · exact Or.inr (Or.inl ⟨by rw [he], hp⟩)
    · exact Or.inr (Or.inr ⟨by rw [he], hp⟩)

/-- Claim C2, witness: a batch with one valid flight followed by a flight
whose TIPOVUELO and OPERA are both invalid is rejected with 400 on
TIPOVUELO, the first failing field. -/
theorem c2_validation_witness :
    Challenge.post_predict Challenge.storeZero
      [Challenge.fLatam, ⟨"NoSuchAir", "X", 5⟩] =
      Challenge.ApiResult.httpError 400
        "Value in column TIPOVUELO is incorrect" :=
  (c2_validation Challenge.storeZero [Challenge.fLatam] []
    ⟨"NoSuchAir", "X", 5⟩ ("TIPOVUELO", "Column TIPOVUELO not found")
    (by
      intro g hg
      rw [List.mem_singleton.1 hg]
      rfl)
    (by rfl)).2.1

/-- Claim C1, code bug. Both flights of this two-flight batch pass
validation, yet check_response returns a single label: it predicts on the
one row `data_predict = [[0] * 10]`, filled only from
`features_df[col].values[0]` (the first flight), so a batch of n valid
flights never gets n labels for n ≥ 2. The claim (one label per input
flight, in request order) demands two labels here. -/
theorem c1_batch_single_label :
    Challenge.check_response Challenge.storeZero
      [Challenge.fLatam, Challenge.fSky] = Except.ok [0] ∧
    Challenge.validateFlight
      (Challenge.replace_opera Challenge.storeZero.featureCols)
      Challenge.fLatam = none ∧
    Challenge.validateFlight
      (Challenge.replace_opera Challenge.storeZero.featureCols)
      Challenge.fSky = none :=
  ⟨rfl, rfl, rfl⟩

/-- A raw training row whose airline, flight type and month all lie
outside the ten-column vocabulary. -/
def rowOutside : Challenge.RawRow :=
  ⟨⟨2023, 6, 1, 7, 0, 0⟩, ⟨2023, 6, 1, 7, 10, 0⟩, "American Airlines", "N", 1⟩

/-- Claim C3, counterexample. On the preprocess path the claim's all-zero
round-trip fails: `features[self.top_10_features]` raises a pandas
KeyError (modelled as `none`) when a vocabulary column is missing from
the batch dummies, so encoding the record whose airline, flight type and
month all lie outside the vocabulary does not produce the all-zero
vector of length 10 the claim demands. -/
theorem c3_encode_counterexample :
    Challenge.selectTop10 [rowOutside] = none ∧
    (∀ c ∈ Challenge.oneHotColsRaw rowOutside,
      ¬ c ∈ Challenge.top_10_features) :=
  ⟨rfl, by decide⟩

/-- Claim C3, amended. Feature encoding projects the one-hot columns onto
the frozen 10-column vocabulary as follows. Serving path (check_response,
model.py:280-286): the single projected row always has the vocabulary's
fixed length 10; it is built from the FIRST flight of the batch only, its
entries are that flight's one-hot values on the ten vocabulary columns
(every vocabulary column the flight does not carry is 0, every column
outside the vocabulary is dropped), and a first flight whose airline,
flight type and month all lie outside the vocabulary encodes to the
all-zero vector of length 10. Training path (preprocess, model.py:79-88):
`features[self.top_10_features]` does not zero-fill missing columns — it
raises a KeyError (`none`) exactly when some vocabulary column occurs in
no row of the batch; when every vocabulary column occurs somewhere in
the batch it returns one length-10 row per input row, in input order,
whose entries are that row's one-hot values on the vocabulary columns
(absent ones zero, engineered columns outside the vocabulary dropped),
and a row of the batch lying entirely outside the vocabulary contributes
the all-zero vector. -/
theorem c3_feature_projection_amended (flights : List Challenge.Flight)
    (df : List Challenge.RawRow) :
    (Challenge.projectTop10 flights).length = 10 ∧
    (∀ f, flights.head? = some f →
      Challenge.projectTop10 flights =
        Challenge.top_10_features.map
          (fun c => if c ∈ Challenge.oneHotCols f then 1 else 0) ∧
      ((∀ c ∈ Challenge.oneHotCols f, ¬ c ∈ Challenge.top_10_features) →
        Challenge.projectTop10 flights = List.replicate 10 0)) ∧
    (Challenge.selectTop10 df = none ↔
      ∃ c ∈ Challenge.top_10_features, ∀ r ∈ df,
        ¬ c ∈ Challenge.oneHotColsRaw r) ∧
    (∀ rows, Challenge.selectTop10 df = some rows →
      rows.length = df.length ∧
      (∀ row ∈ rows, row.length = 10) ∧
      (∀ i (hi : i < rows.length) (hd : i < df.length),
        rows.get ⟨i, hi⟩ =
          Challenge.top_10_features.map
            (fun c => if c ∈ Challenge.oneHotColsRaw (df.get ⟨i, hd⟩)
              then 1 else 0)) ∧
      (∀ r ∈ df, (∀ c ∈ Challenge.oneHotColsRaw r,
          ¬ c ∈ Challenge.top_10_features) →
        List.replicate 10 0 ∈ rows)) := by
  refine ⟨?_, ?_, ?_, ?_⟩
  · rw [Challenge.projectTop10, Challenge.writeCols_length,
      List.length_replicate]
    rfl
  · intro f hf
    have hv : Challenge.dummyVal0 flights =
        fun c => if c ∈ Challenge.oneHotCols f then 1 else 0 := by
      cases flights with
      | nil => cases hf
      | cons g rest =>
        rw [List.head?_cons] at hf
        injection hf with hgf
        subst hgf
        rfl
    have he := Challenge.projectTop10_eq flights
    rw [hv] at he
    refine ⟨he, fun hout => ?_⟩
    rw [he]
    refine List.eq_replicate_iff.2 ⟨?_, ?_⟩
    · rw [List.length_map]
      rfl
    · intro b hb
      rcases List.mem_map.1 hb with ⟨c, hc, hbc⟩
      rw [← hbc]
      exact if_neg (fun hin => hout c hin hc)
  · unfold Challenge.selectTop10
    split_ifs with hcov
    · simp only [List.all_eq_true, List.any_eq_true,
        decide_eq_true_eq] at hcov
      constructor
      · intro h
        exact absurd h (by simp)
      · rintro ⟨c, hc10, hall⟩
        rcases hcov c hc10 with ⟨r, hr, hmem⟩
        exact absurd hmem (hall r hr)
    · simp only [List.all_eq_true, List.any_eq_true,
        decide_eq_true_eq] at hcov
      push_neg at hcov
      exact ⟨fun _ => hcov, fun _ => rfl⟩
  · intro rows h
    unfold Challenge.selectTop10 at h
    split_ifs at h with hcov
    · injection h with h2
      subst h2
      refine ⟨List.length_map _ _, ?_, ?_, ?_⟩
      · intro row hrow
        rcases List.mem_map.1 hrow with ⟨r, hr, rfl⟩
        rw [List.length_map]
        rfl
      · intro i hi hd
        rw [List.get_eq_getElem, List.getElem_map, List.get_eq_getElem]
      · intro r hr hout
        have hzero : Challenge.top_10_features.map
            (fun c => if c ∈ Challenge.oneHotColsRaw r then 1 else 0) =
            List.replicate 10 0 := by
          refine List.eq_replicate_iff.2 ⟨?_, ?_⟩
          · rw [List.length_map]
            rfl
          · intro b hb
            rcases List.mem_map.1 hb with ⟨c, hc10, hbc⟩
            rw [← hbc]
            exact if_neg (fun hin => hout c hin hc10)
        rw [← hzero]
        exact List.mem_map_of_mem _ hr

/-- Claim C3, witness: the theorem applied on both paths — the serving
projection of the all-outside flight is the all-zero vector, while the
preprocess selection of the batch holding only the all-outside row is
the modelled KeyError. -/
theorem c3_feature_projection_amended_witness :
    Challenge.projectTop10 [Challenge.fOutside] = List.replicate 10 0 ∧
    Challenge.selectTop10 [rowOutside] = none :=
  ⟨((c3_feature_projection_amended [Challenge.fOutside] []).2.1
      Challenge.fOutside rfl).2 (by decide),
   (c3_feature_projection_amended [] [rowOutside]).2.2.1.mpr
     ⟨"MES_7", by decide, by decide⟩⟩

/-- Claim C7. For a binary label column, the class weight fit assigns to
class 1 is the share of the opposite class (labels that are not 1) among
all samples, and symmetrically for class 0. -/
theorem c7_fit_class_weights (target : List Nat)
    (hbin : ∀ l ∈ target, l = 0 ∨ l = 1) :
    (Challenge.fitClassWeights target).1 =
      ((target.filter (fun l => ¬ l = 1)).length : ℚ) / target.length ∧
    (Challenge.fitClassWeights target).2 =
      ((target.filter (fun l => ¬ l = 0)).length : ℚ) / target.length := by
  have h0 : target.filter (fun l => l = 0) =
      target.filter (fun l => ¬ l = 1) :=
    List.filter_congr (by
      intro x hx
      rcases hbin x hx with h | h <;> simp [h])
  have h1 : target.filter (fun l => l = 1) =
      target.filter (fun l => ¬ l = 0) :=
    List.filter_congr (by
      intro x hx
      rcases hbin x hx with h | h <;> simp [h])
  constructor
  · show ((target.filter (fun l => l = 0)).length : ℚ) / target.length = _
    rw [h0]
  · show ((target.filter (fun l => l = 1)).length : ℚ) / target.length = _
    rw [h1]

/-- Claim C7, witness: the theorem applied to the label column [0, 0, 1]. -/
theorem c7_fit_class_weights_witness :
    (Challenge.fitClassWeights [0, 0, 1]).1 =
      ((([0, 0, 1] : List Nat).filter (fun l => ¬ l = 1)).length : ℚ) /
        ([0, 0, 1] : List Nat).length :=
  (c7_fit_class_weights [0, 0, 1] (by decide)).1

/-- Claim C8, counterexample. post_predict reads the persisted store
inside the request handler (`DelayModel()` re-loads `data/model.h5` in
its constructor and check_response re-reads `data/all_features.p`), so
the embedding passes the store to the handler per request. The same
request served under two persisted model contents gets two different
answers — impossible if the model were loaded once at startup and never
re-read while serving, as the claim states. -/
theorem c8_reload_counterexample :
    Challenge.post_predict Challenge.storeZero [Challenge.fLatam] =
      Challenge.ApiResult.ok [0] ∧
    Challenge.post_predict Challenge.storeOne [Challenge.fLatam] =
      Challenge.ApiResult.ok [1] :=
  ⟨by decide, by decide⟩

/-- Claim C8, amended: each /predict request constructs a fresh
DelayModel and re-reads both persisted artifacts, so the response is a
function of the store contents at request time — here the same request is
rejected under an empty persisted vocabulary and accepted under the
populated one. -/
theorem c8_reload_amended :
    Challenge.post_predict (⟨[], fun _ => 0⟩ : Challenge.Store)
      [Challenge.fLatam] =
      Challenge.ApiResult.httpError 400
        "Value in column OPERA is incorrect" ∧
    Challenge.post_predict Challenge.storeZero [Challenge.fLatam] =
      Challenge.ApiResult.ok [0] :=
  ⟨by decide, by decide⟩

/-- Claim C9. preprocess's in-place column assignments, modelled by
returning the updated frame: the updated frame keeps every raw column of
every row unchanged, the update does not depend on whether target_column
is set, and each row gains exactly the four derived columns period_day,
high_season, min_diff and delay with their computed values; the returned
features are a separate projection. -/
theorem c9_preprocess_mutation (df : List Challenge.RawRow)
    (tc : Option String) :
    ((Challenge.preprocess df tc).1.map Challenge.EngRow.raw = df) ∧
    ((Challenge.preprocess df tc).1 = (Challenge.preprocess df none).1) ∧
    (∀ e ∈ (Challenge.preprocess df tc).1,
      e.period_day =
        Challenge.get_period_day (Challenge.dtTime e.raw.fechaI) ∧
      e.high_season = Challenge.is_high_season e.raw.fechaI ∧
      e.min_diff = Challenge.get_min_diff e.raw ∧
      e.delay = Challenge.delayLabel (Challenge.get_min_diff e.raw)) := by
  refine ⟨?_, rfl, ?_⟩
  · show (df.map Challenge.addDerived).map Challenge.EngRow.raw = df
    rw [List.map_map]
    have hcomp : Challenge.EngRow.raw ∘ Challenge.addDerived = id := rfl
    rw [hcomp, List.map_id]
  · intro e he
    have he2 : e ∈ df.map Challenge.addDerived := he
    rcases List.mem_map.1 he2 with ⟨r, hr, rfl⟩
    exact ⟨rfl, rfl, rfl, rfl⟩

/-- A concrete raw training row for the C9 witness. -/
def rowEx : Challenge.RawRow :=
  ⟨⟨2023, 1, 1, 7, 0, 0⟩, ⟨2023, 1, 1, 7, 30, 0⟩, "Grupo LATAM", "I", 1⟩

/-- Claim C9, witness: the theorem applied to a one-row frame with
target_column set. -/
theorem c9_preprocess_mutation_witness :
    (Challenge.preprocess [rowEx] (some "delay")).1.map
      Challenge.EngRow.raw = [rowEx] :=
  (c9_preprocess_mutation [rowEx] (some "delay")).1

/-- Claim C10. check_response on an empty flights list produces no
validation error: it predicts on the single all-zero feature row of
length 10 and returns a list of exactly one label, not an empty list. -/
theorem c10_empty_batch (store : Challenge.Store) :
    Challenge.check_response store [] =
      Except.ok [(store.classifier (List.replicate 10 0)).val] ∧
    ∀ labels, Challenge.check_response store [] = Except.ok labels →
      labels.length = 1 := by
  constructor
  · rfl
  · intro labels h
    rw [show Challenge.check_response store [] =
      Except.ok [(store.classifier (List.replicate 10 0)).val] from rfl] at h
    cases h
    rfl

/-- Claim C10, witness: the theorem applied to the concrete store whose
classifier always answers 0. -/
theorem c10_empty_batch_witness :
    Challenge.check_response Challenge.storeZero [] = Except.ok [0] ∧
    ([0] : List Nat).length = 1 :=
  ⟨(c10_empty_batch Challenge.storeZero).1,
   (c10_empty_batch Challenge.storeZero).2 [0]
     (c10_empty_batch Challenge.storeZero).1⟩
